import Mathlib

/-!
Verification of the example notebook
`docs/source/examples/notebooks/example3-3_PredefinedSequences.ipynb`
of the `zhinst-toolkit` repository.

The notebook is a linear script of calls into the external `zhinst.toolkit`
library (device connection, predefined sequence configuration, compilation,
arming, running, result readback) together with a few `numpy` array
constructions.  This file embeds the notebook as a small Python-statement
AST, gives it an executable interpreter (with oracles for the externally
determined compile statuses and hardware measurement results), models the
pieces of `numpy` and of IEEE-754 binary64 arithmetic that the notebook's
numeric claims depend on, and proves the claimed properties.
-/

set_option maxRecDepth 10000

namespace ZhinstNotebook

/-! ## Model of the numpy operations used by the notebook -/

/-- `np.linspace a b num`: `num` evenly spaced points from `a` to `b`,
both endpoints included (for `num ≥ 2`). -/
def linspace (a b : ℚ) (num : Nat) : List ℚ :=
  if num ≤ 1 then List.replicate num a
  else (List.range num).map (fun i : Nat => a + (b - a) * i / ((num : ℚ) - 1))

/-- `np.mean` of a vector of rationals. -/
def meanQ (l : List ℚ) : ℚ := l.sum / l.length

theorem linspace_length (a b : ℚ) (num : Nat) : (linspace a b num).length = num := by
  unfold linspace
  split
  · rw [List.length_replicate]
  · rw [List.length_map, List.length_range]

/-! ## Model of IEEE-754 binary64 arithmetic on the rationals

Python floats are IEEE-754 binary64 values; every finite binary64 value is a
rational number, and the arithmetic of the notebook stays far inside the
normal range.  We model a positive normal-range float as the rational
obtained by rounding the exact value to 53 significant bits
(round-to-nearest, ties-to-even).  All recursions are structural so that the
kernel can evaluate them. -/

/-- For `1 ≤ q`: the greatest `e ≤ fuel` with `2 ^ e ≤ q` (binary exponent).
The test `2 ≤ q` is phrased on numerator and denominator so that the kernel
can evaluate it. -/
def expDown : Nat → ℚ → Nat
  | 0, _ => 0
  | fuel + 1, q => if 2 * (q.den : Int) ≤ q.num then expDown fuel (q / 2) + 1 else 0

/-- The binary exponent of a positive rational: the unique `e` with
`2 ^ e ≤ q < 2 ^ (e + 1)` (for arguments in the binary64 normal range). -/
def exp2floor (q : ℚ) : Int :=
  if (q.den : Int) ≤ q.num then (expDown 1100 q : Int)
  else
    let k := expDown 1100 (1 / q)
    if ((2 : ℚ) ^ k == 1 / q) then -(k : Int) else -(k : Int) - 1

/-- Floor of a nonnegative rational (integer division of numerator by
denominator truncates toward zero, which is the floor for `0 ≤ q`). -/
def posFloor (q : ℚ) : Int := q.num / (q.den : Int)

/-- Round a nonnegative rational to the nearest integer, ties to even. -/
def rne (q : ℚ) : Int :=
  let f := posFloor q
  let r := q - (f : ℚ)
  if 2 * r.num < (r.den : Int) then f
  else if (r.den : Int) < 2 * r.num then f + 1
  else if f % 2 = 0 then f else f + 1

/-- `2 ^ k` for an integer `k`, as a rational. -/
def qpow2 (k : Int) : ℚ :=
  if 0 ≤ k then ((2 : ℚ) ^ k.toNat) else 1 / (2 : ℚ) ^ (-k).toNat

/-- Round a positive rational in the binary64 normal range to the nearest
representable binary64 value (round-to-nearest, ties-to-even): the
significand is rounded to 53 bits. Zero and negative inputs (unused) map
to `0`. -/
def fl (q : ℚ) : ℚ :=
  if q.num ≤ 0 then 0
  else
    let e := exp2floor q
    (rne (q * qpow2 (52 - e)) : ℚ) * qpow2 (e - 52)

/-- Python's `int()` on a float value: truncation toward zero. -/
def pyInt (q : ℚ) : Int :=
  if 0 ≤ q.num then posFloor q else -(posFloor (-q))

/-- The Python value of the literal `5e-6` (the nearest binary64 to
`5 / 10 ^ 6`). -/
def five_us : ℚ := fl (5 / 1000000)

/-- The Python value of `int(2.4e9 * 5e-6)` as written in the notebook:
`2.4e9` is exactly representable, the product with the binary64 value of
`5e-6` is rounded once, and `int` truncates. -/
def waveSamples : Int := pyInt (fl (2400000000 * five_us))

/-! ## A Python-statement AST for the notebook

The notebook is embedded statement by statement.  A receiver expression such
as `uhfqa.channels[0]` is recorded as its base variable name plus the
attribute/index path written after it; an empty base denotes a Python
builtin function (`len`).  Keyword and positional arguments are literals,
variable references, or (at most singly) nested calls, which is all the
notebook uses. -/

/-- A receiver expression: base variable plus trailing attribute path. -/
structure Recv where
  base : String
  attr : String
  deriving DecidableEq, Repr

/-- A leaf argument: a literal or a variable reference. -/
inductive LKw
  | num (q : ℚ)
  | str (s : String)
  | name (n : String)
  | numList (l : List ℚ)
  deriving DecidableEq, Repr

/-- An argument: a leaf, a nested call with leaf arguments (e.g.
`np.mean(channel.result())`), or the product `n * len(arr)` that the
notebook writes as `averages * len(...)` in two `repetitions=` arguments. -/
inductive Kw
  | leaf (k : LKw)
  | callv (r : Recv) (method : String) (args : List LKw)
  | mulNameLen (n : String) (arrName : String)
  deriving DecidableEq, Repr

/-- A call expression `recv.method(pos..., kw...)`. -/
structure Call where
  r : Recv
  method : String
  pos : List Kw
  kw : List (String × Kw)
  deriving DecidableEq, Repr

/-- A simple (non-compound) Python statement. -/
inductive SStmt
  | expr (c : Call)
  | assignC (lhs : String) (c : Call)
  | assignN (lhs : String) (q : ℚ)
  | aliasS (lhs : String) (rhs : Recv)
  | importAs (modName asName : String)
  deriving DecidableEq, Repr

/-- A top-level Python statement.  The compound constructors beyond
`forLoop` (conditionals, while loops, try/except, function and class
definitions) are part of the statement language so that their absence from
the notebook is a meaningful property; the notebook's loop bodies contain
only simple statements. -/
inductive Stmt
  | simple (s : SStmt)
  | forLoop (v : String) (iter : String) (body : List SStmt)
  | ifStmt (cond : String) (thn els : List SStmt)
  | whileStmt (cond : String) (body : List SStmt)
  | tryStmt (body handler : List SStmt)
  | funcDef (name : String) (body : List SStmt)
  | classDef (name : String)
  deriving DecidableEq, Repr

/-! ## The notebook, cell by cell

Rational literals stand for the Python float literals of the source
(`10e-6` is `1/100000`, and so on); none of the literals below except
`int(2.4e9 * 5e-6)` (embedded via `waveSamples` above) is sensitive to
binary64 rounding in any property claimed about it. -/

/-- Cell 1: data-server connection and device setup. -/
def cell1 : List Stmt :=
  [.simple (.importAs "zhinst.toolkit" "tk"),
   .simple (.importAs "numpy" "np"),
   .simple (.assignC "mdc" ⟨⟨"tk", ""⟩, "MultiDeviceConnection", [],
     [("host", .leaf (.str "10.42.0.226"))]⟩),
   .simple (.expr ⟨⟨"mdc", ""⟩, "setup", [], []⟩),
   .simple (.expr ⟨⟨"mdc", ""⟩, "connect_device",
     [.callv ⟨"tk", ""⟩ "HDAWG" [.str "hdawg 1", .str "dev8030"]], []⟩),
   .simple (.expr ⟨⟨"mdc", ""⟩, "connect_device",
     [.callv ⟨"tk", ""⟩ "UHFQA" [.str "uhfqa 1", .str "dev2266"]], []⟩),
   .simple (.aliasS "hdawg" ⟨"mdc", ".hdawgs[hdawg 1]"⟩),
   .simple (.aliasS "uhfqa" ⟨"mdc", ".uhfqas[uhfqa 1]"⟩)]

/-- Cell 2: resonator-spectroscopy configuration (`Trigger` sequence on the
HDAWG AWG core, `Pulsed Spectroscopy` on the UHFQA) and compilation. -/
def cell2 : List Stmt :=
  [.simple (.aliasS "trigger" ⟨"hdawg", ".awgs[0]"⟩),
   .simple (.aliasS "readout" ⟨"uhfqa", ".awg"⟩),
   .simple (.assignN "period" (1 / 100000)),
   .simple (.assignN "repetitions" 1000),
   .simple (.expr ⟨⟨"trigger", ""⟩, "set_sequence_params", [],
     [("sequence_type", .leaf (.str "Trigger")),
      ("period", .leaf (.name "period")),
      ("repetitions", .leaf (.name "repetitions"))]⟩),
   .simple (.expr ⟨⟨"trigger", ""⟩, "compile", [], []⟩),
   .simple (.expr ⟨⟨"readout", ""⟩, "set_sequence_params", [],
     [("sequence_type", .leaf (.str "Pulsed Spectroscopy")),
      ("period", .leaf (.name "period")),
      ("repetitions", .leaf (.name "repetitions")),
      ("trigger_mode", .leaf (.str "External Trigger"))]⟩),
   .simple (.expr ⟨⟨"readout", ""⟩, "compile", [], []⟩)]

/-- The body of the resonator-spectroscopy sweep loop. -/
def resonatorSweepBody : List SStmt :=
  [.expr ⟨⟨"modulation_freq", ""⟩, "__call__", [.leaf (.name "f")], []⟩,
   .expr ⟨⟨"uhfqa", ""⟩, "arm", [], []⟩,
   .expr ⟨⟨"readout", ""⟩, "run", [], []⟩,
   .expr ⟨⟨"trigger", ""⟩, "run", [], []⟩,
   .expr ⟨⟨"trigger", ""⟩, "wait_done", [], []⟩,
   .assignC "avg_result" ⟨⟨"np", ""⟩, "mean",
     [.callv ⟨"uhfqa", ".channels[0]"⟩ "result" []], []⟩,
   .assignC "results" ⟨⟨"np", ""⟩, "append",
     [.leaf (.name "results"), .leaf (.name "avg_result")], []⟩]

/-- Cell 3: resonator-spectroscopy measurement.  The second statement
references the name `ufhqa`, a transposition of `uhfqa` that no cell
defines. -/
def cell3 : List Stmt :=
  [.simple (.expr ⟨⟨"uhfqa", ""⟩, "result_source", [.leaf (.str "Integration")], []⟩),
   .simple (.expr ⟨⟨"ufhqa", ""⟩, "arm", [],
     [("length", .leaf (.name "repetitions")), ("averages", .leaf (.num 1))]⟩),
   .simple (.aliasS "modulation_freq" ⟨"uhfqa", ".nodetree.osc.freq"⟩),
   .simple (.assignC "frequencies" ⟨⟨"np", ""⟩, "linspace",
     [.leaf (.num 50000000), .leaf (.num 100000000), .leaf (.num 101)], []⟩),
   .simple (.assignC "results" ⟨⟨"np", ""⟩, "array", [.leaf (.numList [])], []⟩),
   .forLoop "f" "frequencies" resonatorSweepBody]

/-- Cell 4: qubit-spectroscopy configuration.  The drive AWG uses the
`Simple` sequence with a rectangular pulse of `int(2.4e9 * 5e-6)` samples
(embedded through the binary64 model as `waveSamples`), queued once for
each of the two output channels; the UHFQA uses the `Readout` sequence. -/
def cell4 : List Stmt :=
  [.simple (.aliasS "drive" ⟨"hdawg", ".awgs[0]"⟩),
   .simple (.aliasS "readout" ⟨"uhfqa", ".awg"⟩),
   .simple (.aliasS "channel" ⟨"uhfqa", ".channels[0]"⟩),
   .simple (.assignN "period" (1 / 100000)),
   .simple (.assignN "repetitions" 100),
   .simple (.expr ⟨⟨"drive", ""⟩, "set_sequence_params", [],
     [("sequence_type", .leaf (.str "Simple")),
      ("period", .leaf (.name "period")),
      ("repetitions", .leaf (.name "repetitions")),
      ("trigger_mode", .leaf (.str "Send Trigger"))]⟩),
   .simple (.expr ⟨⟨"drive", ""⟩, "reset_queue", [], []⟩),
   .simple (.assignC "wave" ⟨⟨"np", ""⟩, "ones", [.leaf (.num (waveSamples : ℚ))], []⟩),
   .simple (.expr ⟨⟨"drive", ""⟩, "queue_waveform",
     [.leaf (.name "wave"), .leaf (.name "wave")], []⟩),
   .simple (.expr ⟨⟨"drive", ""⟩, "compile_and_upload_waveforms", [], []⟩),
   .simple (.expr ⟨⟨"channel", ""⟩, "enable", [], []⟩),
   .simple (.expr ⟨⟨"channel", ""⟩, "readout_frequency", [.leaf (.num 123000000)], []⟩),
   .simple (.expr ⟨⟨"readout", ""⟩, "set_sequence_params", [],
     [("sequence_type", .leaf (.str "Readout")),
      ("period", .leaf (.name "period")),
      ("repetitions", .leaf (.name "repetitions")),
      ("pulse_lenth", .leaf (.num (1 / 500000))),
      ("trigger_mode", .leaf (.str "External Trigger"))]⟩),
   .simple (.expr ⟨⟨"readout", ""⟩, "compile", [], []⟩)]

/-- The body of the qubit-spectroscopy sweep loop. -/
def qubitSweepBody : List SStmt :=
  [.expr ⟨⟨"drive", ""⟩, "modulation_freq", [.leaf (.name "f")], []⟩,
   .expr ⟨⟨"uhfqa", ""⟩, "arm", [], []⟩,
   .expr ⟨⟨"readout", ""⟩, "run", [], []⟩,
   .expr ⟨⟨"drive", ""⟩, "run", [], []⟩,
   .expr ⟨⟨"drive", ""⟩, "wait_done", [], []⟩,
   .assignC "avg_result" ⟨⟨"np", ""⟩, "mean",
     [.callv ⟨"channel", ""⟩ "result" []], []⟩,
   .assignC "results" ⟨⟨"np", ""⟩, "append",
     [.leaf (.name "results"), .leaf (.name "avg_result")], []⟩]

/-- Cell 5: qubit-spectroscopy measurement sweep. -/
def cell5 : List Stmt :=
  [.simple (.expr ⟨⟨"uhfqa", ".nodetree.qa.result"⟩, "source", [.leaf (.num 7)], []⟩),
   .simple (.expr ⟨⟨"uhfqa", ""⟩, "arm", [],
     [("length", .leaf (.name "repetitions")), ("averages", .leaf (.num 1))]⟩),
   .simple (.assignC "frequencies" ⟨⟨"np", ""⟩, "linspace",
     [.leaf (.num 20000000), .leaf (.num 50000000), .leaf (.num 101)], []⟩),
   .simple (.assignC "results" ⟨⟨"np", ""⟩, "array", [.leaf (.numList [])], []⟩),
   .simple (.expr ⟨⟨"drive", ""⟩, "enable_iq_modulation", [], []⟩),
   .forLoop "f" "frequencies" qubitSweepBody]

/-- Cell 6: Rabi-sequence configuration. -/
def cell6 : List Stmt :=
  [.simple (.aliasS "drive" ⟨"hdawg", ".awgs[0]"⟩),
   .simple (.aliasS "readout" ⟨"uhfqa", ".awg"⟩),
   .simple (.aliasS "channel" ⟨"uhfqa", ".channels[0]"⟩),
   .simple (.assignN "averages" 256),
   .simple (.assignN "period" (1 / 100000)),
   .simple (.assignC "rabi_amplitudes" ⟨⟨"np", ""⟩, "linspace",
     [.leaf (.num 0), .leaf (.num 1), .leaf (.num 101)], []⟩),
   .simple (.expr ⟨⟨"hdawg", ".awgs[0]"⟩, "enable_iq_modulation", [], []⟩),
   .simple (.expr ⟨⟨"hdawg", ".awgs[0]"⟩, "modulation_freq", [.leaf (.num 100000000)], []⟩),
   .simple (.expr ⟨⟨"hdawg", ".awgs[0]"⟩, "set_sequence_params", [],
     [("sequence_type", .leaf (.str "Rabi")),
      ("pulse_width", .leaf (.num (1 / 20000000))),
      ("pulse_amplitudes", .leaf (.name "rabi_amplitudes")),
      ("period", .leaf (.name "period")),
      ("repetitions", .leaf (.name "averages")),
      ("trigger_mode", .leaf (.str "Send Trigger"))]⟩),
   .simple (.expr ⟨⟨"hdawg", ".awgs[0]"⟩, "compile", [], []⟩),
   .simple (.expr ⟨⟨"channel", ""⟩, "enable", [], []⟩),
   .simple (.expr ⟨⟨"channel", ""⟩, "readout_frequency", [.leaf (.num 123000000)], []⟩),
   .simple (.expr ⟨⟨"readout", ""⟩, "set_sequence_params", [],
     [("sequence_type", .leaf (.str "Readout")),
      ("period", .leaf (.name "period")),
      ("repetitions", .mulNameLen "averages" "rabi_amplitudes"),
      ("trigger_mode", .leaf (.str "External Trigger")),
      ("pulse_lenth", .leaf (.num (1 / 500000)))]⟩),
   .simple (.expr ⟨⟨"readout", ""⟩, "compile", [], []⟩)]

/-- Cell 7: Rabi measurement. -/
def cell7 : List Stmt :=
  [.simple (.expr ⟨⟨"uhfqa", ""⟩, "result_mode", [.leaf (.str "Cyclic")], []⟩),
   .simple (.expr ⟨⟨"uhfqa", ""⟩, "arm", [],
     [("length", .callv ⟨"", ""⟩ "len" [.name "rabi_amplitudes"]),
      ("averages", .leaf (.name "averages"))]⟩),
   .simple (.expr ⟨⟨"readout", ""⟩, "run", [], []⟩),
   .simple (.expr ⟨⟨"drive", ""⟩, "run", [], []⟩),
   .simple (.expr ⟨⟨"drive", ""⟩, "wait_done", [], []⟩),
   .simple (.assignC "result" ⟨⟨"channel", ""⟩, "result", [], []⟩)]

/-- Cell 8: T1 configuration. -/
def cell8 : List Stmt :=
  [.simple (.aliasS "drive" ⟨"hdawg", ".awgs[0]"⟩),
   .simple (.aliasS "readout" ⟨"uhfqa", ".awg"⟩),
   .simple (.aliasS "channel" ⟨"uhfqa", ".channels[0]"⟩),
   .simple (.assignN "period" (1 / 20000)),
   .simple (.assignN "averages" 256),
   .simple (.assignC "delay_times" ⟨⟨"np", ""⟩, "linspace",
     [.leaf (.num (1 / 2000000)), .leaf (.num (1 / 50000)), .leaf (.num 40)], []⟩),
   .simple (.expr ⟨⟨"hdawg", ".awgs[0]"⟩, "enable_iq_modulation", [], []⟩),
   .simple (.expr ⟨⟨"hdawg", ".awgs[0]"⟩, "modulation_freq", [.leaf (.num 100000000)], []⟩),
   .simple (.expr ⟨⟨"hdawg", ".awgs[0]"⟩, "set_sequence_params", [],
     [("sequence_type", .leaf (.str "T1")),
      ("pulse_width", .leaf (.num (1 / 20000000))),
      ("delay_times", .leaf (.name "delay_times")),
      ("period", .leaf (.name "period")),
      ("repetitions", .leaf (.name "averages")),
      ("trigger_mode", .leaf (.str "Send Trigger"))]⟩),
   .simple (.expr ⟨⟨"hdawg", ".awgs[0]"⟩, "compile", [], []⟩),
   .simple (.expr ⟨⟨"channel", ""⟩, "enable", [], []⟩),
   .simple (.expr ⟨⟨"channel", ""⟩, "readout_frequency", [.leaf (.num 123000000)], []⟩),
   .simple (.expr ⟨⟨"readout", ""⟩, "set_sequence_params", [],
     [("sequence_type", .leaf (.str "Readout")),
      ("period", .leaf (.name "period")),
      ("pulse_lenth", .leaf (.num (1 / 500000))),
      ("repetitions", .mulNameLen "averages" "delay_times"),
      ("trigger_mode", .leaf (.str "External Trigger"))]⟩),
   .simple (.expr ⟨⟨"readout", ""⟩, "compile", [], []⟩)]

/-- Cell 9: T1 measurement. -/
def cell9 : List Stmt :=
  [.simple (.expr ⟨⟨"uhfqa", ""⟩, "arm", [],
     [("length", .callv ⟨"", ""⟩ "len" [.name "delay_times"]),
      ("averages", .leaf (.name "averages"))]⟩),
   .simple (.expr ⟨⟨"readout", ""⟩, "run", [], []⟩),
   .simple (.expr ⟨⟨"drive", ""⟩, "run", [], []⟩),
   .simple (.expr ⟨⟨"drive", ""⟩, "wait_done", [], []⟩),
   .simple (.assignC "result" ⟨⟨"channel", ""⟩, "result", [], []⟩)]

/-- Cell 10: the Custom-sequence example (the name `awg` is not defined
anywhere in the notebook). -/
def cell10 : List Stmt :=
  [.simple (.expr ⟨⟨"awg", ""⟩, "set_sequence_params", [],
     [("path", .leaf (.str "...\\Zurich Instruments\\LabOne\\WebServer\\awg\\src\\myProgram.seqC")),
      ("custom_params", .leaf (.numList [1000, 99, 1]))]⟩)]

/-- The notebook: its code cells in order. -/
def notebookCells : List (List Stmt) :=
  [cell1, cell2, cell3, cell4, cell5, cell6, cell7, cell8, cell9, cell10]

/-! ## An interpreter for the embedded notebook

Execution follows Python/Jupyter semantics at statement granularity: names
are looked up at use time and reading an undefined name raises a
`NameError`, which aborts the remainder of the cell (subsequent cells still
run).  Everything the external world decides is an oracle: the
compile/upload status reported by the library for the k-th compilation
call, and the measurement-result vector the hardware returns for the
currently set modulation frequency. -/

/-- A runtime value.  Library objects are identified by their canonical
attribute path from the objects created in cell 1. -/
inductive Value
  | num (q : ℚ)
  | vstr (s : String)
  | arr (l : List ℚ)
  | status (b : Bool)
  | obj (path : String)
  | pynone
  | opaqueV
  deriving DecidableEq, Repr

/-- The external world: compile statuses and hardware measurement results. -/
structure Oracles where
  status : Nat → Bool
  meas : ℚ → List ℚ

/-- Interpreter state: the environment, the currently set modulation
frequency, the number of compile calls made so far, the pending
`NameError` (if any) of the current cell, and the trace of executed call
statements (their receiver path and method). -/
structure St where
  env : List (String × Value)
  curFreq : ℚ
  nCompile : Nat
  errName : Option String
  trace : List String

def bindVar (st : St) (n : String) (v : Value) : St := { st with env := (n, v) :: st.env }

def setErr (st : St) (n : String) : St := { st with errName := some n }

def pushTrace (st : St) (l : String) : St := { st with trace := st.trace ++ [l] }

def lookupVar (st : St) (n : String) : Option Value := st.env.lookup n

/-- Resolve a receiver to its canonical object path (an empty base denotes
a builtin function and reads no variable). -/
def resolvePath (st : St) (r : Recv) : Except String String :=
  if r.base == "" then .ok r.attr
  else match lookupVar st r.base with
    | some (.obj p) => .ok (p ++ r.attr)
    | some _ => .ok (r.base ++ r.attr)
    | none => .error r.base

def evalLKw (st : St) : LKw → Except String Value
  | .num q => .ok (.num q)
  | .str s => .ok (.vstr s)
  | .name n =>
    match lookupVar st n with
    | some v => .ok v
    | none => .error n
  | .numList l => .ok (.arr l)

def evalLKws (st : St) : List LKw → Except String (List Value)
  | [] => .ok []
  | k :: ks =>
    match evalLKw st k with
    | .error n => .error n
    | .ok v =>
      match evalLKws st ks with
      | .error n => .error n
      | .ok vs => .ok (v :: vs)

/-- The state effect of one call: a `compile`-like call advances the
compile counter (the library prints the next status), and
`modulation_freq` (or the bare call of the aliased
`uhfqa.nodetree.osc.freq` node, embedded as `__call__`) sets the current
modulation frequency.  No other call changes the interpreter state; in
particular the state effect consults no oracle. -/
def methodSt (st : St) (method : String) (args : List Value) : St :=
  if (method == "compile" || method == "compile_and_upload_waveforms") then
    { st with nCompile := st.nCompile + 1 }
  else if (method == "modulation_freq" || method == "__call__") then
    match args with
    | [.num f] => { st with curFreq := f }
    | _ => st
  else st

/-- The value of an oracle-free call: the `numpy` builtins compute, and
calls into the external library return `None` (their effects happen on the
hardware). -/
def methodValPure (method : String) (args : List Value) : Value :=
  if method == "linspace" then
    match args with
    | [.num a, .num b, .num n] => .arr (linspace a b n.num.toNat)
    | _ => .opaqueV
  else if method == "array" then
    match args with
    | [.arr l] => .arr l
    | _ => .opaqueV
  else if method == "ones" then
    match args with
    | [.num n] => .arr (List.replicate n.num.toNat 1)
    | _ => .opaqueV
  else if method == "mean" then
    match args with
    | [.arr l] => .num (meanQ l)
    | _ => .opaqueV
  else if method == "append" then
    match args with
    | [.arr l, .num q] => .arr (l ++ [q])
    | _ => .opaqueV
  else if method == "len" then
    match args with
    | [.arr l] => .num ((l.length : ℚ))
    | _ => .opaqueV
  else .pynone

/-- The value of one call: a `compile`-like call reports the next
compile-status oracle value (the notebook prints the status and discards
it); `result()` returns the measurement vector the hardware produced for
the currently set modulation frequency; every other call is oracle-free. -/
def methodVal (o : Oracles) (st : St) (method : String) (args : List Value) : Value :=
  if (method == "compile" || method == "compile_and_upload_waveforms") then
    .status (o.status st.nCompile)
  else if method == "result" then
    .arr (o.meas st.curFreq)
  else methodValPure method args

/-- The state and value of one call. -/
def applyMethod (o : Oracles) (st : St) (method : String) (args : List Value) : St × Value :=
  (methodSt st method args, methodVal o st method args)

def evalKw (o : Oracles) (st : St) : Kw → Except String (St × Value)
  | .leaf k =>
    match evalLKw st k with
    | .error n => .error n
    | .ok v => .ok (st, v)
  | .callv r m args =>
    match resolvePath st r with
    | .error n => .error n
    | .ok _ =>
      match evalLKws st args with
      | .error n => .error n
      | .ok vs => .ok (applyMethod o st m vs)
  | .mulNameLen n a =>
    match lookupVar st n with
    | none => .error n
    | some v1 =>
      match lookupVar st a with
      | none => .error a
      | some v2 =>
        match v1, v2 with
        | .num q, .arr l => .ok (st, .num (q * (l.length : ℚ)))
        | _, _ => .ok (st, .opaqueV)

def evalKws (o : Oracles) (st : St) : List Kw → Except String (St × List Value)
  | [] => .ok (st, [])
  | k :: ks =>
    match evalKw o st k with
    | .error n => .error n
    | .ok (st1, v) =>
      match evalKws o st1 ks with
      | .error n => .error n
      | .ok (st2, vs) => .ok (st2, v :: vs)

def evalKwPairs (o : Oracles) (st : St) : List (String × Kw) → Except String St
  | [] => .ok st
  | (_, k) :: ks =>
    match evalKw o st k with
    | .error n => .error n
    | .ok (st1, _) => evalKwPairs o st1 ks

/-- Run one call: resolve the receiver, evaluate positional then keyword
arguments (any undefined name raises), apply the method; also return the
trace label `path.method`. -/
def runCall (o : Oracles) (st : St) (c : Call) : Except String (St × Value × String) :=
  match resolvePath st c.r with
  | .error n => .error n
  | .ok p =>
    match evalKws o st c.pos with
    | .error n => .error n
    | .ok (st1, vs) =>
      match evalKwPairs o st1 c.kw with
      | .error n => .error n
      | .ok st2 =>
        let sv := applyMethod o st2 c.method vs
        .ok (sv.1, sv.2, p ++ "." ++ c.method)

def execSS (o : Oracles) (st : St) (s : SStmt) : St :=
  if st.errName.isSome then st else
  match s with
  | .importAs _ a => bindVar st a (.obj a)
  | .assignN lhs q => bindVar st lhs (.num q)
  | .aliasS lhs r =>
    match resolvePath st r with
    | .error n => setErr st n
    | .ok p => bindVar st lhs (.obj p)
  | .expr c =>
    match runCall o st c with
    | .error n => setErr st n
    | .ok (st1, _, lbl) => pushTrace st1 lbl
  | .assignC lhs c =>
    match runCall o st c with
    | .error n => setErr st n
    | .ok (st1, v, lbl) => bindVar (pushTrace st1 lbl) lhs v

def execSSs (o : Oracles) (st : St) : List SStmt → St
  | [] => st
  | s :: rest => execSSs o (execSS o st s) rest

def execFor (o : Oracles) (v : String) (body : List SStmt) (st : St) : List ℚ → St
  | [] => st
  | q :: qs =>
    if st.errName.isSome then st
    else execFor o v body (execSSs o (bindVar st v (.num q)) body) qs

/-- Python truthiness of a value (only needed for the conditional
constructs, none of which the notebook contains). -/
def truthy : Value → Bool
  | .status b => b
  | .num q => !(q.num == 0)
  | .arr l => !l.isEmpty
  | .vstr s => !(s == "")
  | .obj _ => true
  | .pynone => false
  | .opaqueV => true

def execWhile (o : Oracles) (cond : String) (body : List SStmt) (st : St) : Nat → St
  | 0 => st
  | fuel + 1 =>
    if st.errName.isSome then st
    else match lookupVar st cond with
      | none => setErr st cond
      | some v => if truthy v then execWhile o cond body (execSSs o st body) fuel else st

def execStmt (o : Oracles) (st : St) : Stmt → St
  | .simple s => execSS o st s
  | .forLoop v iter body =>
    if st.errName.isSome then st
    else match lookupVar st iter with
      | none => setErr st iter
      | some (.arr l) => execFor o v body st l
      | some _ => st
  | .ifStmt cond thn els =>
    if st.errName.isSome then st
    else match lookupVar st cond with
      | none => setErr st cond
      | some v => if truthy v then execSSs o st thn else execSSs o st els
  | .whileStmt cond body => execWhile o cond body st 1000
  | .tryStmt body handler =>
    if st.errName.isSome then st
    else
      let st1 := execSSs o st body
      match st1.errName with
      | some _ => execSSs o { st1 with errName := none } handler
      | none => st1
  | .funcDef n _ => if st.errName.isSome then st else bindVar st n (.obj n)
  | .classDef n => if st.errName.isSome then st else bindVar st n (.obj n)

def execStmts (o : Oracles) (st : St) : List Stmt → St
  | [] => st
  | s :: rest => execStmts o (execStmt o st s) rest

/-- Per-cell outcome: the executed call statements and the `NameError`
name, if one was raised. -/
structure CellRes where
  trace : List String
  errName : Option String
  deriving DecidableEq, Repr

/-- Run a list of cells under Jupyter semantics: an error aborts only the
cell that raised it. -/
def runCells (o : Oracles) (st : St) : List (List Stmt) → St × List CellRes
  | [] => (st, [])
  | c :: cs =>
    let st1 := execStmts o { st with errName := none, trace := [] } c
    let rest := runCells o st1 cs
    (rest.1, ⟨st1.trace, st1.errName⟩ :: rest.2)

def initSt : St := ⟨[], 0, 0, none, []⟩

/-- Run the whole notebook from an empty environment. -/
def notebookRun (o : Oracles) : St × List CellRes := runCells o initSt notebookCells

/-! ## Oracle invariance

The interpreter consults the oracles only when producing the *value* of a
`compile`-like call (the status) or of a `result()` call (the measurement
vector); the state effect `methodSt` is oracle-free.  The lemmas below
show, by induction on the interpreter, that two runs under different
oracles are equal provided every call whose value is *kept* (bound by an
assignment, or passed as a nested argument) has an oracle-independent
value; the set of such methods is a parameter `sens`.  Instantiated with
"everything except compile", this says the run is independent of the
reported compile statuses; instantiated with "everything except compile
and result", it says a result-free statement prefix is independent of the
oracles altogether. -/

/-- The simple statements contained in a top-level statement (its own, or
its bodies'). -/
def stmtSimples : Stmt → List SStmt
  | .simple s => [s]
  | .forLoop _ _ b => b
  | .ifStmt _ t e => t ++ e
  | .whileStmt _ b => b
  | .tryStmt b h => b ++ h
  | .funcDef _ b => b
  | .classDef _ => []

/-- Arguments whose values only come from `sens`-approved calls. -/
def kwOK (sens : String → Bool) : Kw → Bool
  | .leaf _ => true
  | .callv _ m _ => sens m
  | .mulNameLen _ _ => true

def callArgsOK (sens : String → Bool) (c : Call) : Bool :=
  (c.pos ++ c.kw.map (fun p => p.2)).all (kwOK sens)

/-- A simple statement whose kept values are `sens`-approved (the value of
an expression statement is discarded, so only its arguments are
constrained). -/
def ssOK (sens : String → Bool) : SStmt → Bool
  | .expr c => callArgsOK sens c
  | .assignC _ c => callArgsOK sens c && sens c.method
  | _ => true

def stmtOK (sens : String → Bool) (s : Stmt) : Bool :=
  (stmtSimples s).all (ssOK sens)

def cellsOK (sens : String → Bool) (cells : List (List Stmt)) : Bool :=
  cells.all (fun c => c.all (stmtOK sens))

theorem evalKw_indep (o1 o2 : Oracles) (sens : String → Bool)
    (HV : ∀ st mth args, sens mth = true → methodVal o1 st mth args = methodVal o2 st mth args)
    (st : St) (k : Kw) (hk : kwOK sens k = true) :
    evalKw o1 st k = evalKw o2 st k := by
  cases k with
  | leaf l => rfl
  | mulNameLen n a => rfl
  | callv r m args =>
    simp only [kwOK] at hk
    simp only [evalKw]
    cases resolvePath st r with
    | error n => rfl
    | ok p =>
      cases evalLKws st args with
      | error n => rfl
      | ok vs => simp [applyMethod, HV st m vs hk]

theorem evalKws_indep (o1 o2 : Oracles) (sens : String → Bool)
    (HV : ∀ st mth args, sens mth = true → methodVal o1 st mth args = methodVal o2 st mth args)
    (ks : List Kw) : ∀ st : St, ks.all (kwOK sens) = true →
    evalKws o1 st ks = evalKws o2 st ks := by
  induction ks with
  | nil => intro st _; rfl
  | cons k ks ih =>
    intro st hall
    simp only [List.all_cons, Bool.and_eq_true] at hall
    simp only [evalKws]
    rw [evalKw_indep o1 o2 sens HV st k hall.1]
    cases evalKw o2 st k with
    | error n => rfl
    | ok sv =>
      obtain ⟨st1, v⟩ := sv
      dsimp only
      rw [ih st1 hall.2]

theorem evalKwPairs_indep (o1 o2 : Oracles) (sens : String → Bool)
    (HV : ∀ st mth args, sens mth = true → methodVal o1 st mth args = methodVal o2 st mth args)
    (ps : List (String × Kw)) : ∀ st : St, (ps.map (fun p => p.2)).all (kwOK sens) = true →
    evalKwPairs o1 st ps = evalKwPairs o2 st ps := by
  induction ps with
  | nil => intro st _; rfl
  | cons p ps ih =>
    intro st hall
    simp only [List.map_cons, List.all_cons, Bool.and_eq_true] at hall
    simp only [evalKwPairs]
    rw [evalKw_indep o1 o2 sens HV st p.2 hall.1]
    cases evalKw o2 st p.2 with
    | error n => rfl
    | ok sv =>
      obtain ⟨st1, v⟩ := sv
      dsimp only
      rw [ih st1 hall.2]

theorem runCall_indep (o1 o2 : Oracles) (sens : String → Bool)
    (HV : ∀ st mth args, sens mth = true → methodVal o1 st mth args = methodVal o2 st mth args)
    (st : St) (c : Call) (hargs : callArgsOK sens c = true) (hm : sens c.method = true) :
    runCall o1 st c = runCall o2 st c := by
  simp only [callArgsOK, List.all_append, Bool.and_eq_true] at hargs
  simp only [runCall]
  cases resolvePath st c.r with
  | error n => rfl
  | ok p =>
    rw [evalKws_indep o1 o2 sens HV c.pos st hargs.1]
    cases evalKws o2 st c.pos with
    | error n => rfl
    | ok sv =>
      obtain ⟨st1, vs⟩ := sv
      dsimp only
      rw [evalKwPairs_indep o1 o2 sens HV c.kw st1 hargs.2]
      cases evalKwPairs o2 st1 c.kw with
      | error n => rfl
      | ok st2 => simp [applyMethod, HV st2 c.method vs hm]

theorem runCall_st_indep (o1 o2 : Oracles) (sens : String → Bool)
    (HV : ∀ st mth args, sens mth = true → methodVal o1 st mth args = methodVal o2 st mth args)
    (st : St) (c : Call) (hargs : callArgsOK sens c = true) :
    (runCall o1 st c).map (fun x => (x.1, x.2.2))
      = (runCall o2 st c).map (fun x => (x.1, x.2.2)) := by
  simp only [callArgsOK, List.all_append, Bool.and_eq_true] at hargs
  simp only [runCall]
  cases resolvePath st c.r with
  | error n => rfl
  | ok p =>
    rw [evalKws_indep o1 o2 sens HV c.pos st hargs.1]
    cases evalKws o2 st c.pos with
    | error n => rfl
    | ok sv =>
      obtain ⟨st1, vs⟩ := sv
      dsimp only
      rw [evalKwPairs_indep o1 o2 sens HV c.kw st1 hargs.2]
      cases evalKwPairs o2 st1 c.kw with
      | error n => rfl
      | ok st2 => rfl

theorem execSS_indep (o1 o2 : Oracles) (sens : String → Bool)
    (HV : ∀ st mth args, sens mth = true → methodVal o1 st mth args = methodVal o2 st mth args)
    (st : St) (s : SStmt) (hs : ssOK sens s = true) :
    execSS o1 st s = execSS o2 st s := by
  cases s with
  | importAs a b => rfl
  | assignN l q => rfl
  | aliasS l r => rfl
  | expr c =>
    simp only [ssOK] at hs
    have h := runCall_st_indep o1 o2 sens HV st c hs
    simp only [execSS]
    cases e1 : runCall o1 st c with
    | error n =>
      cases e2 : runCall o2 st c with
      | error n2 =>
        rw [e1, e2] at h
        simp only [Except.map, Except.error.injEq] at h
        rw [h]
      | ok x2 =>
        rw [e1, e2] at h
        simp [Except.map] at h
    | ok x1 =>
      cases e2 : runCall o2 st c with
      | error n2 =>
        rw [e1, e2] at h
        simp [Except.map] at h
      | ok x2 =>
        obtain ⟨st1, v1, l1⟩ := x1
        obtain ⟨st2, v2, l2⟩ := x2
        rw [e1, e2] at h
        simp only [Except.map, Except.ok.injEq, Prod.mk.injEq] at h
        dsimp only
        rw [h.1, h.2]
  | assignC l c =>
    simp only [ssOK, Bool.and_eq_true] at hs
    simp only [execSS]
    rw [runCall_indep o1 o2 sens HV st c hs.1 hs.2]

theorem execSSs_indep (o1 o2 : Oracles) (sens : String → Bool)
    (HV : ∀ st mth args, sens mth = true → methodVal o1 st mth args = methodVal o2 st mth args)
    (l : List SStmt) : ∀ st : St, l.all (ssOK sens) = true →
    execSSs o1 st l = execSSs o2 st l := by
  induction l with
  | nil => intro st _; rfl
  | cons s rest ih =>
    intro st hall
    simp only [List.all_cons, Bool.and_eq_true] at hall
    simp only [execSSs]
    rw [execSS_indep o1 o2 sens HV st s hall.1]
    exact ih (execSS o2 st s) hall.2

theorem execFor_indep (o1 o2 : Oracles) (sens : String → Bool)
    (HV : ∀ st mth args, sens mth = true → methodVal o1 st mth args = methodVal o2 st mth args)
    (v : String) (body : List SStmt) (hbody : body.all (ssOK sens) = true)
    (l : List ℚ) : ∀ st : St, execFor o1 v body st l = execFor o2 v body st l := by
  induction l with
  | nil => intro st; rfl
  | cons q qs ih =>
    intro st
    simp only [execFor]
    rw [execSSs_indep o1 o2 sens HV body (bindVar st v (.num q)) hbody]
    cases st.errName.isSome with
    | true => simp
    | false => simp only [Bool.false_eq_true, if_false, ih]

theorem execWhile_indep (o1 o2 : Oracles) (sens : String → Bool)
    (HV : ∀ st mth args, sens mth = true → methodVal o1 st mth args = methodVal o2 st mth args)
    (cond : String) (body : List SStmt) (hbody : body.all (ssOK sens) = true)
    (fuel : Nat) : ∀ st : St, execWhile o1 cond body st fuel = execWhile o2 cond body st fuel := by
  induction fuel with
  | zero => intro st; rfl
  | succ n ih =>
    intro st
    simp only [execWhile]
    cases lookupVar st cond with
    | none => rfl
    | some v =>
      dsimp only
      rw [execSSs_indep o1 o2 sens HV body st hbody, ih]

theorem execStmt_indep (o1 o2 : Oracles) (sens : String → Bool)
    (HV : ∀ st mth args, sens mth = true → methodVal o1 st mth args = methodVal o2 st mth args)
    (st : St) (s : Stmt) (hs : stmtOK sens s = true) :
    execStmt o1 st s = execStmt o2 st s := by
  cases s with
  | simple s0 =>
    simp only [stmtOK, stmtSimples, List.all_cons, List.all_nil, Bool.and_true] at hs
    exact execSS_indep o1 o2 sens HV st s0 hs
  | forLoop v iter body =>
    simp only [stmtOK, stmtSimples] at hs
    simp only [execStmt]
    cases lookupVar st iter with
    | none => rfl
    | some v0 =>
      cases v0 with
      | arr l =>
        dsimp only
        rw [execFor_indep o1 o2 sens HV v body hs l st]
      | num q => rfl
      | vstr s2 => rfl
      | status b => rfl
      | obj p => rfl
      | pynone => rfl
      | opaqueV => rfl
  | ifStmt cond thn els =>
    simp only [stmtOK, stmtSimples, List.all_append, Bool.and_eq_true] at hs
    simp only [execStmt]
    cases lookupVar st cond with
    | none => rfl
    | some v =>
      dsimp only
      rw [execSSs_indep o1 o2 sens HV thn st hs.1, execSSs_indep o1 o2 sens HV els st hs.2]
  | whileStmt cond body =>
    simp only [stmtOK, stmtSimples] at hs
    simp only [execStmt]
    rw [execWhile_indep o1 o2 sens HV cond body hs]
  | tryStmt body handler =>
    simp only [stmtOK, stmtSimples, List.all_append, Bool.and_eq_true] at hs
    simp only [execStmt]
    rw [execSSs_indep o1 o2 sens HV body st hs.1]
    cases (execSSs o2 st body).errName with
    | none => rfl
    | some n =>
      dsimp only
      rw [execSSs_indep o1 o2 sens HV handler _ hs.2]
  | funcDef n body => rfl
  | classDef n => rfl

theorem execStmts_indep (o1 o2 : Oracles) (sens : String → Bool)
    (HV : ∀ st mth args, sens mth = true → methodVal o1 st mth args = methodVal o2 st mth args)
    (l : List Stmt) : ∀ st : St, l.all (stmtOK sens) = true →
    execStmts o1 st l = execStmts o2 st l := by
  induction l with
  | nil => intro st _; rfl
  | cons s rest ih =>
    intro st hall
    simp only [List.all_cons, Bool.and_eq_true] at hall
    simp only [execStmts]
    rw [execStmt_indep o1 o2 sens HV st s hall.1]
    exact ih (execStmt o2 st s) hall.2

theorem runCells_indep (o1 o2 : Oracles) (sens : String → Bool)
    (HV : ∀ st mth args, sens mth = true → methodVal o1 st mth args = methodVal o2 st mth args)
    (cells : List (List Stmt)) : ∀ st : St, cellsOK sens cells = true →
    runCells o1 st cells = runCells o2 st cells := by
  induction cells with
  | nil => intro st _; rfl
  | cons c cs ih =>
    intro st hall
    simp only [cellsOK, List.all_cons, Bool.and_eq_true] at hall
    simp only [runCells]
    rw [execStmts_indep o1 o2 sens HV c _ hall.1]
    rw [ih (execStmts o2 { st with errName := none, trace := [] } c) hall.2]

/-- Values of non-compile calls do not depend on the compile-status
oracle. -/
theorem methodVal_status_indep (s1 s2 : Nat → Bool) (m : ℚ → List ℚ)
    (st : St) (mth : String) (args : List Value)
    (h : (!(mth == "compile" || mth == "compile_and_upload_waveforms")) = true) :
    methodVal ⟨s1, m⟩ st mth args = methodVal ⟨s2, m⟩ st mth args := by
  simp only [Bool.not_eq_eq_eq_not, Bool.not_true] at h
  simp only [methodVal, h]
  rfl

/-- Values of non-compile, non-result calls do not depend on the oracles
at all. -/
theorem methodVal_oracle_indep (o1 o2 : Oracles)
    (st : St) (mth : String) (args : List Value)
    (h : (!((mth == "compile" || mth == "compile_and_upload_waveforms") || mth == "result")) = true) :
    methodVal o1 st mth args = methodVal o2 st mth args := by
  simp only [Bool.not_eq_eq_eq_not, Bool.not_true, Bool.or_eq_false_iff] at h
  simp only [methodVal, h.1, h.2]
  rfl

/-- The `sens` family for compile-status invariance. -/
def statusSens : String → Bool :=
  fun mth => !(mth == "compile" || mth == "compile_and_upload_waveforms")

/-- The `sens` family for full oracle invariance of result-free code. -/
def pureSens : String → Bool :=
  fun mth => !((mth == "compile" || mth == "compile_and_upload_waveforms") || mth == "result")

theorem execStmts_append (o : Oracles) (l1 l2 : List Stmt) :
    ∀ st : St, execStmts o st (l1 ++ l2) = execStmts o (execStmts o st l1) l2 := by
  induction l1 with
  | nil => intro st; rfl
  | cons s rest ih => intro st; simp only [List.cons_append, execStmts]; exact ih (execStmt o st s)

theorem lookupVar_bind (st : St) (n : String) (v : Value) (x : String) :
    lookupVar (bindVar st n v) x = if (x == n) = true then some v else lookupVar st x := by
  cases h : x == n <;> simp [lookupVar, bindVar, List.lookup, h]

/-! ## Static structure of the notebook -/

/-- Conditional, while and try/except statements. -/
def isBranching : Stmt → Bool
  | .ifStmt _ _ _ => true
  | .whileStmt _ _ => true
  | .tryStmt _ _ => true
  | _ => false

/-- Function and class definitions. -/
def isDefn : Stmt → Bool
  | .funcDef _ _ => true
  | .classDef _ => true
  | _ => false

/-- Number of top-level statements of the notebook satisfying `p`. -/
def countP (p : Stmt → Bool) (cells : List (List Stmt)) : Nat :=
  ((cells.map (fun c => (c.filter p).length)).sum)

def compileMethods : List String := ["compile", "compile_and_upload_waveforms"]

/-- The calls of a simple statement. -/
def ssCalls : SStmt → List Call
  | .expr c => [c]
  | .assignC _ c => [c]
  | _ => []

/-- All simple statements of the notebook, loop bodies included. -/
def allSimples (cells : List (List Stmt)) : List SStmt :=
  ((cells.flatten).map stmtSimples).flatten

/-- All calls of the notebook, loop bodies included. -/
def allCalls (cells : List (List Stmt)) : List Call :=
  ((allSimples cells).map ssCalls).flatten

/-- The method names invoked by a call, nested argument calls included. -/
def callMethods (c : Call) : List String :=
  c.method ::
    ((c.pos ++ c.kw.map (fun p => p.2)).filterMap fun k =>
      match k with
      | .callv _ m _ => some m
      | .mulNameLen _ _ => some "len"
      | .leaf _ => none)

/-- All method names invoked anywhere in the notebook. -/
def allMethodNames (cells : List (List Stmt)) : List String :=
  ((allCalls cells).map callMethods).flatten

/-- Does this simple statement bind the value of a compile/upload call to a
name? -/
def ssBindsCompile : SStmt → Bool
  | .assignC _ c => compileMethods.contains c.method
  | _ => false

/-- Does this call nest a compile/upload call inside an argument? -/
def nestedCompile (c : Call) : Bool :=
  (c.pos ++ c.kw.map (fun p => p.2)).any fun k =>
    match k with
    | .callv _ m _ => compileMethods.contains m
    | _ => false

/-! ### Alias-resolving scan: configuration before compilation -/

/-- State of the static scan: textual aliases to canonical object paths,
the set of canonical AWG-core paths that have received a
`set_sequence_params` call carrying a `sequence_type`, the canonical
targets of the compile/upload calls seen so far (in order), and whether
every compile so far hit a configured core. -/
structure ScanSt where
  aliases : List (String × String)
  configured : List String
  targets : List String
  ok : Bool

/-- Canonical object path of a receiver under the current aliases. -/
def canonR (al : List (String × String)) (r : Recv) : String :=
  (match al.lookup r.base with
   | some p => p
   | none => r.base) ++ r.attr

def scanCall (sc : ScanSt) (c : Call) : ScanSt :=
  let t := canonR sc.aliases c.r
  if c.method == "set_sequence_params" && (c.kw.map (fun p => p.1)).contains "sequence_type" then
    { sc with configured := t :: sc.configured }
  else if compileMethods.contains c.method then
    { sc with targets := sc.targets ++ [t],
              ok := sc.ok && sc.configured.contains t }
  else sc

def scanSS (sc : ScanSt) (s : SStmt) : ScanSt :=
  match s with
  | .aliasS lhs r => { sc with aliases := (lhs, canonR sc.aliases r) :: sc.aliases }
  | .assignN lhs _ => { sc with aliases := sc.aliases.filter (fun p => !(p.1 == lhs)) }
  | .assignC lhs c =>
    let sc1 := scanCall sc c
    { sc1 with aliases := sc1.aliases.filter (fun p => !(p.1 == lhs)) }
  | .importAs _ _ => sc
  | .expr c => scanCall sc c

def scanSSs (sc : ScanSt) : List SStmt → ScanSt
  | [] => sc
  | s :: rest => scanSSs (scanSS sc s) rest

def scanStmt (sc : ScanSt) (s : Stmt) : ScanSt := scanSSs sc (stmtSimples s)

def scanStmts (sc : ScanSt) : List Stmt → ScanSt
  | [] => sc
  | s :: rest => scanStmts (scanStmt sc s) rest

def scanCells (sc : ScanSt) : List (List Stmt) → ScanSt
  | [] => sc
  | c :: cs => scanCells (scanStmts sc c) cs

/-- Scan the whole notebook in program order. -/
def notebookScan (cells : List (List Stmt)) : ScanSt :=
  scanCells ⟨[], [], [], true⟩ cells

/-- Canonical path of the HDAWG's first AWG core. -/
def hdawgAwg0 : String := "mdc.hdawgs[hdawg 1].awgs[0]"

/-- Canonical path of the UHFQA's AWG core. -/
def uhfqaAwg : String := "mdc.uhfqas[uhfqa 1].awg"

/-- Canonical path of the UHFQA device. -/
def uhfqaPath : String := "mdc.uhfqas[uhfqa 1]"

/-! ### Classification of measurement-sequence statements -/

/-- The operations of one sweep iteration (and of the Rabi/T1 measurement
cells). -/
inductive MeasAction
  | setFreq
  | armReadout
  | runReadout
  | runDrive
  | waitDriveDone
  | readResult
  | appendResult
  deriving DecidableEq, Repr

/-- Classify a simple statement as one of the measurement operations.
Frequency setting is the `modulation_freq` call (or the bare call of the
aliased `uhfqa.nodetree.osc.freq` node); arming is `arm` on the `uhfqa`
device; running distinguishes the readout AWG from the drive/trigger AWG by
the receiver variable; a result read is a direct or nested `result()`
call whose value is bound. -/
def classifySS : SStmt → Option MeasAction
  | .expr c =>
    if (c.method == "__call__" || c.method == "modulation_freq") then some .setFreq
    else if (c.method == "arm" && c.r.base == "uhfqa") then some .armReadout
    else if c.method == "run" then
      (if c.r.base == "readout" then some .runReadout
       else if (c.r.base == "trigger" || c.r.base == "drive") then some .runDrive
       else none)
    else if (c.method == "wait_done" && (c.r.base == "trigger" || c.r.base == "drive")) then
      some .waitDriveDone
    else none
  | .assignC _ c =>
    if c.method == "result" then some .readResult
    else if c.pos.any (fun k =>
        match k with
        | .callv _ m _ => m == "result"
        | _ => false) then some .readResult
    else if c.method == "append" then some .appendResult
    else none
  | _ => none

/-- The bodies of the notebook's `for` loops, in order. -/
def loopBodies (cells : List (List Stmt)) : List (List SStmt) :=
  (cells.flatten).filterMap fun s =>
    match s with
    | .forLoop _ _ b => some b
    | _ => none

/-- The order of operations claimed for one sweep iteration. -/
def sweepOrder : List MeasAction :=
  [.setFreq, .armReadout, .runReadout, .runDrive, .waitDriveDone, .readResult, .appendResult]

/-! ### The Readout-sequence keyword arguments -/

/-- The `set_sequence_params` calls selecting the `Readout` sequence. -/
def readoutCalls (cells : List (List Stmt)) : List Call :=
  (allCalls cells).filter fun c =>
    c.method == "set_sequence_params" &&
      c.kw.contains ("sequence_type", Kw.leaf (.str "Readout"))

/-- The keyword-argument names of those calls, in source order. -/
def readoutKwNames (cells : List (List Stmt)) : List (List String) :=
  (readoutCalls cells).map fun c => c.kw.map (fun p => p.1)

/-- The values passed under the keyword `pulse_lenth` in those calls. -/
def readoutPulseLenthValues (cells : List (List Stmt)) : List (List Kw) :=
  (readoutCalls cells).map fun c =>
    (c.kw.filter (fun p => p.1 == "pulse_lenth")).map (fun p => p.2)

/-- A `for` loop. -/
def isForLoop : Stmt → Bool
  | .forLoop _ _ _ => true
  | _ => false

/-! ## The Custom sequence's placeholder substitution -/

/-- A token of a `.seqC` program: literal text, or a `$paramN$`
placeholder with index `N`. -/
inductive SeqToken
  | lit (s : String)
  | paramRef (n : Nat)
  deriving DecidableEq, Repr

/-- A token of the program after substitution: literal text, or a
substituted parameter value. -/
inductive OutToken
  | lit (s : String)
  | val (z : Int)
  deriving DecidableEq, Repr

/-- Modelled from the spec: the Custom (`.seqC`) sequence support of the
`zhinst-toolkit` library is not part of this source snapshot (which
contains only the notebook that demonstrates it); per its documentation,
each placeholder of the form `$paramN$` in the `.seqC` program is
substituted by the N-th element (indices starting from 0) of the
`custom_params` list passed to `set_sequence_params`. -/
def substituteParams (params : List Int) : List SeqToken → List OutToken
  | [] => []
  | .lit s :: ts => .lit s :: substituteParams params ts
  | .paramRef n :: ts => .val (params.getD n 0) :: substituteParams params ts

/-! ## Concrete oracles and auxiliary runs used by the theorems -/

/-- A concrete choice of oracles (all compilations succeed, the hardware
returns empty result vectors). -/
def o0 : Oracles := ⟨fun _ => true, fun _ => []⟩

/-- Cell 3 with its second statement (the `ufhqa.arm(...)` misspelling,
settled by claim C8) removed: the NameError aborts cell 3 before its sweep
loop is reached, so the behaviour of the resonator sweep loop itself is
exhibited by the cell's remaining statements. -/
def cell3Fixed : List Stmt := cell3.eraseIdx 1

/-! ## The sweep loops

The two frequency-sweep loops are analysed by induction: one lemma
describes a single iteration of a loop body (executed from any state that
binds the notebook's device handles), and one lemma folds it over the
frequency list.  The states at loop entry are computed from the preceding
statements. -/

/-- Canonical path of the UHFQA's first readout channel. -/
def uhfqaCh0 : String := "mdc.uhfqas[uhfqa 1].channels[0]"

/-- Canonical path of the UHFQA's internal-oscillator frequency node. -/
def oscFreqPath : String := "mdc.uhfqas[uhfqa 1].nodetree.osc.freq"

/-- The trace labels of one qubit-spectroscopy sweep iteration. -/
def qubitIterLabels : List String :=
  [hdawgAwg0 ++ ".modulation_freq", uhfqaPath ++ ".arm", uhfqaAwg ++ ".run",
   hdawgAwg0 ++ ".run", hdawgAwg0 ++ ".wait_done", "np.mean", "np.append"]

/-- The trace labels of one resonator-spectroscopy sweep iteration. -/
def resonatorIterLabels : List String :=
  [oscFreqPath ++ ".__call__", uhfqaPath ++ ".arm", uhfqaAwg ++ ".run",
   hdawgAwg0 ++ ".run", hdawgAwg0 ++ ".wait_done", "np.mean", "np.append"]

/-- One iteration of the qubit-spectroscopy sweep: with the loop variable
`f` bound to the frequency `q`, the body sets the modulation frequency,
arms, runs the readout then the drive AWG, waits, reads the result and
appends its mean to `results`. -/
theorem qubitStep (o : Oracles) (st : St) (q : ℚ) (acc : List ℚ)
    (hdr : lookupVar st "drive" = some (.obj hdawgAwg0))
    (huq : lookupVar st "uhfqa" = some (.obj uhfqaPath))
    (hro : lookupVar st "readout" = some (.obj uhfqaAwg))
    (hnp : lookupVar st "np" = some (.obj "np"))
    (hch : lookupVar st "channel" = some (.obj uhfqaCh0))
    (hres : lookupVar st "results" = some (.arr acc))
    (herr : st.errName = none) :
    execSSs o (bindVar st "f" (.num q)) qubitSweepBody =
      bindVar (bindVar (bindVar { st with curFreq := q, trace := st.trace ++ qubitIterLabels }
        "f" (.num q)) "avg_result" (.num (meanQ (o.meas q)))) "results"
        (.arr (acc ++ [meanQ (o.meas q)])) := by
  simp only [lookupVar] at hdr huq hro hnp hch hres
  simp [qubitSweepBody, execSSs, execSS, runCall, resolvePath, evalKws, evalKwPairs, evalKw,
    evalLKws, evalLKw, applyMethod, methodSt, methodVal, methodValPure, lookupVar, bindVar,
    pushTrace, setErr, List.lookup, herr, hdr, huq, hro, hnp, hch, hres, qubitIterLabels]
  refine ⟨?_, ?_, ?_, ?_, ?_⟩ <;> with_unfolding_all rfl

/-- The qubit-spectroscopy sweep loop: starting from accumulated results
`acc`, one mean is appended per frequency, in order. -/
theorem qubitLoop (o : Oracles) (freqs : List ℚ) : ∀ (st : St) (acc : List ℚ),
    lookupVar st "drive" = some (.obj hdawgAwg0) →
    lookupVar st "uhfqa" = some (.obj uhfqaPath) →
    lookupVar st "readout" = some (.obj uhfqaAwg) →
    lookupVar st "np" = some (.obj "np") →
    lookupVar st "channel" = some (.obj uhfqaCh0) →
    lookupVar st "results" = some (.arr acc) →
    st.errName = none →
    lookupVar (execFor o "f" qubitSweepBody st freqs) "results"
      = some (.arr (acc ++ freqs.map (fun f => meanQ (o.meas f)))) := by
  induction freqs with
  | nil =>
    intro st acc hdr huq hro hnp hch hres herr
    simpa [execFor] using hres
  | cons q qs ih =>
    intro st acc hdr huq hro hnp hch hres herr
    simp only [execFor, herr, Option.isSome_none, Bool.false_eq_true, if_false]
    rw [qubitStep o st q acc hdr huq hro hnp hch hres herr]
    simp only [lookupVar] at hdr huq hro hnp hch
    rw [ih _ (acc ++ [meanQ (o.meas q)])
      (by simp [lookupVar, bindVar, List.lookup, hdr])
      (by simp [lookupVar, bindVar, List.lookup, huq])
      (by simp [lookupVar, bindVar, List.lookup, hro])
      (by simp [lookupVar, bindVar, List.lookup, hnp])
      (by simp [lookupVar, bindVar, List.lookup, hch])
      (by simp [lookupVar, bindVar, List.lookup])
      (by simp [bindVar, herr])]
    simp [List.append_assoc]

/-- One iteration of the resonator-spectroscopy sweep (the trigger AWG
plays the role of the drive AWG, and the frequency is set through the
aliased `uhfqa.nodetree.osc.freq` node). -/
theorem resonatorStep (o : Oracles) (st : St) (q : ℚ) (acc : List ℚ)
    (hmf : lookupVar st "modulation_freq" = some (.obj oscFreqPath))
    (huq : lookupVar st "uhfqa" = some (.obj uhfqaPath))
    (hro : lookupVar st "readout" = some (.obj uhfqaAwg))
    (htr : lookupVar st "trigger" = some (.obj hdawgAwg0))
    (hnp : lookupVar st "np" = some (.obj "np"))
    (hres : lookupVar st "results" = some (.arr acc))
    (herr : st.errName = none) :
    execSSs o (bindVar st "f" (.num q)) resonatorSweepBody =
      bindVar (bindVar (bindVar { st with curFreq := q, trace := st.trace ++ resonatorIterLabels }
        "f" (.num q)) "avg_result" (.num (meanQ (o.meas q)))) "results"
        (.arr (acc ++ [meanQ (o.meas q)])) := by
  simp only [lookupVar] at hmf huq hro htr hnp hres
  simp [resonatorSweepBody, execSSs, execSS, runCall, resolvePath, evalKws, evalKwPairs, evalKw,
    evalLKws, evalLKw, applyMethod, methodSt, methodVal, methodValPure, lookupVar, bindVar,
    pushTrace, setErr, List.lookup, herr, hmf, huq, hro, htr, hnp, hres, resonatorIterLabels]
  refine ⟨?_, ?_, ?_, ?_, ?_⟩ <;> with_unfolding_all rfl

/-- The resonator-spectroscopy sweep loop. -/
theorem resonatorLoop (o : Oracles) (freqs : List ℚ) : ∀ (st : St) (acc : List ℚ),
    lookupVar st "modulation_freq" = some (.obj oscFreqPath) →
    lookupVar st "uhfqa" = some (.obj uhfqaPath) →
    lookupVar st "readout" = some (.obj uhfqaAwg) →
    lookupVar st "trigger" = some (.obj hdawgAwg0) →
    lookupVar st "np" = some (.obj "np") →
    lookupVar st "results" = some (.arr acc) →
    st.errName = none →
    lookupVar (execFor o "f" resonatorSweepBody st freqs) "results"
      = some (.arr (acc ++ freqs.map (fun f => meanQ (o.meas f)))) := by
  induction freqs with
  | nil =>
    intro st acc hmf huq hro htr hnp hres herr
    simpa [execFor] using hres
  | cons q qs ih =>
    intro st acc hmf huq hro htr hnp hres herr
    simp only [execFor, herr, Option.isSome_none, Bool.false_eq_true, if_false]
    rw [resonatorStep o st q acc hmf huq hro htr hnp hres herr]
    simp only [lookupVar] at hmf huq hro htr hnp
    rw [ih _ (acc ++ [meanQ (o.meas q)])
      (by simp [lookupVar, bindVar, List.lookup, hmf])
      (by simp [lookupVar, bindVar, List.lookup, huq])
      (by simp [lookupVar, bindVar, List.lookup, hro])
      (by simp [lookupVar, bindVar, List.lookup, htr])
      (by simp [lookupVar, bindVar, List.lookup, hnp])
      (by simp [lookupVar, bindVar, List.lookup])
      (by simp [bindVar, herr])]
    simp [List.append_assoc]

/-- The statements preceding the qubit-spectroscopy sweep loop: cells 1, 2
and 4, then cell 5's statements before its loop.  (Cell 3 contributes
nothing to the environment: its `NameError` — claim C8 — aborts it
before any of its assignments.) -/
def qubitPrefix : List Stmt := cell1 ++ cell2 ++ cell4 ++ cell5.take 5

/-- The state at entry of the qubit sweep loop. -/
def qubitEntrySt : St := execStmts o0 initSt qubitPrefix

/-- The statements preceding the resonator sweep loop, with the erroneous
`ufhqa.arm` line removed (`cell3Fixed`). -/
def resonatorPrefix : List Stmt := cell1 ++ cell2 ++ cell3Fixed.take 4

/-- The state at entry of the resonator sweep loop. -/
def resonatorEntrySt : St := execStmts o0 initSt resonatorPrefix

/-! ## The claims -/

/-- C1: the notebook's behaviour does not depend on the compile/upload
statuses the external library reports.  The whole run — environments,
traces of executed statements, per-cell errors — is identical under any
two compile-status oracles (the library's status is produced at each of
the eight compile/upload calls but every such call is an expression
statement whose value is discarded); statically, the notebook contains no
conditional, while or try statement, never binds a compile/upload value to
a name, and never nests a compile/upload call inside an argument, so no
loop guard or handler can inspect the status and execution always proceeds
to the next statement. -/
theorem c1_compile_status_ignored (s1 s2 : Nat → Bool) (m : ℚ → List ℚ) :
    notebookRun ⟨s1, m⟩ = notebookRun ⟨s2, m⟩ ∧
    (notebookRun o0).1.nCompile = 8 ∧
    countP isBranching notebookCells = 0 ∧
    (allSimples notebookCells).all (fun s => !ssBindsCompile s) = true ∧
    (allCalls notebookCells).all (fun c => !nestedCompile c) = true := by
  refine ⟨?_, ?_, ?_, ?_, ?_⟩
  · exact runCells_indep ⟨s1, m⟩ ⟨s2, m⟩ statusSens
      (fun st mth args h => methodVal_status_indep s1 s2 m st mth args h)
      notebookCells initSt (by with_unfolding_all rfl)
  · with_unfolding_all rfl
  · with_unfolding_all rfl
  · with_unfolding_all rfl
  · with_unfolding_all rfl

/-- Witness for C1 at concrete oracles: the all-successful and the
all-failing compile-status oracles yield the same run. -/
theorem c1_compile_status_ignored_witness :
    notebookRun ⟨fun _ => true, fun _ => []⟩ = notebookRun ⟨fun _ => false, fun _ => []⟩ ∧
    (notebookRun o0).1.nCompile = 8 ∧
    countP isBranching notebookCells = 0 ∧
    (allSimples notebookCells).all (fun s => !ssBindsCompile s) = true ∧
    (allCalls notebookCells).all (fun c => !nestedCompile c) = true :=
  c1_compile_status_ignored (fun _ => true) (fun _ => false) (fun _ => [])

/-- C3: in both sweep loops the results array starts empty
(`results = np.array([])`) and exactly one averaged value is appended per
sweep point: after the loop the results array is exactly the sweep array
mapped through "mean of the measurement at that frequency", so it has 101
elements and its k-th entry is produced from the k-th frequency, in order;
this holds for every measurement oracle `m` and compile-status oracle `s`.
The qubit sweep is stated over the notebook's cells 1, 2, 4 and 5 (cell 3
contributes nothing: its NameError — claim C8 — aborts it before any of
its assignments); the resonator sweep is stated over cells 1 and 2
followed by the measurement cell with the erroneous `ufhqa.arm` line
removed (`cell3Fixed`), since that NameError would otherwise abort the
cell before its loop is reached. -/
theorem c3_sweep_results (s : Nat → Bool) (m : ℚ → List ℚ) :
    lookupVar (execStmts ⟨s, m⟩ initSt (cell1 ++ cell2 ++ cell4 ++ cell5)) "results"
      = some (.arr ((linspace 20000000 50000000 101).map (fun f => meanQ (m f)))) ∧
    ((linspace 20000000 50000000 101).map (fun f => meanQ (m f))).length = 101 ∧
    lookupVar (execStmts ⟨s, m⟩ initSt (cell1 ++ cell2 ++ cell3Fixed)) "results"
      = some (.arr ((linspace 50000000 100000000 101).map (fun f => meanQ (m f)))) ∧
    ((linspace 50000000 100000000 101).map (fun f => meanQ (m f))).length = 101 := by
  refine ⟨?_, ?_, ?_, ?_⟩
  · have hsplit : cell1 ++ cell2 ++ cell4 ++ cell5
        = qubitPrefix ++ [Stmt.forLoop "f" "frequencies" qubitSweepBody] := by
      with_unfolding_all rfl
    have hpre : execStmts ⟨s, m⟩ initSt qubitPrefix = qubitEntrySt :=
      execStmts_indep ⟨s, m⟩ o0 pureSens
        (fun st mth args h => methodVal_oracle_indep ⟨s, m⟩ o0 st mth args h)
        qubitPrefix initSt (by with_unfolding_all rfl)
    have herr0 : qubitEntrySt.errName = none := by with_unfolding_all rfl
    have hfreq : lookupVar qubitEntrySt "frequencies"
        = some (.arr (linspace 20000000 50000000 101)) := by with_unfolding_all rfl
    rw [hsplit, execStmts_append, hpre]
    simp only [execStmts, execStmt, herr0, hfreq, Option.isSome_none, Bool.false_eq_true, if_false]
    have hloop := qubitLoop ⟨s, m⟩ (linspace 20000000 50000000 101) qubitEntrySt []
      (by with_unfolding_all rfl) (by with_unfolding_all rfl) (by with_unfolding_all rfl)
      (by with_unfolding_all rfl) (by with_unfolding_all rfl) (by with_unfolding_all rfl) herr0
    simpa using hloop
  · rw [List.length_map, linspace_length]
  · have hsplit : cell1 ++ cell2 ++ cell3Fixed
        = resonatorPrefix ++ [Stmt.forLoop "f" "frequencies" resonatorSweepBody] := by
      with_unfolding_all rfl
    have hpre : execStmts ⟨s, m⟩ initSt resonatorPrefix = resonatorEntrySt :=
      execStmts_indep ⟨s, m⟩ o0 pureSens
        (fun st mth args h => methodVal_oracle_indep ⟨s, m⟩ o0 st mth args h)
        resonatorPrefix initSt (by with_unfolding_all rfl)
    have herr0 : resonatorEntrySt.errName = none := by with_unfolding_all rfl
    have hfreq : lookupVar resonatorEntrySt "frequencies"
        = some (.arr (linspace 50000000 100000000 101)) := by with_unfolding_all rfl
    rw [hsplit, execStmts_append, hpre]
    simp only [execStmts, execStmt, herr0, hfreq, Option.isSome_none, Bool.false_eq_true, if_false]
    have hloop := resonatorLoop ⟨s, m⟩ (linspace 50000000 100000000 101) resonatorEntrySt []
      (by with_unfolding_all rfl) (by with_unfolding_all rfl) (by with_unfolding_all rfl)
      (by with_unfolding_all rfl) (by with_unfolding_all rfl) (by with_unfolding_all rfl) herr0
    simpa using hloop
  · rw [List.length_map, linspace_length]

/-- Witness for C3 at concrete oracles. -/
theorem c3_sweep_results_witness :
    lookupVar (execStmts ⟨fun _ => true, fun _ => []⟩ initSt (cell1 ++ cell2 ++ cell4 ++ cell5)) "results"
      = some (.arr ((linspace 20000000 50000000 101).map (fun f => meanQ ((fun _ : ℚ => ([] : List ℚ)) f)))) ∧
    ((linspace 20000000 50000000 101).map (fun f => meanQ ((fun _ : ℚ => ([] : List ℚ)) f))).length = 101 ∧
    lookupVar (execStmts ⟨fun _ => true, fun _ => []⟩ initSt (cell1 ++ cell2 ++ cell3Fixed)) "results"
      = some (.arr ((linspace 50000000 100000000 101).map (fun f => meanQ ((fun _ : ℚ => ([] : List ℚ)) f)))) ∧
    ((linspace 50000000 100000000 101).map (fun f => meanQ ((fun _ : ℚ => ([] : List ℚ)) f))).length = 101 :=
  c3_sweep_results (fun _ => true) (fun _ => [])

/-- C2: in every sweep loop of the notebook, each iteration performs, in
this blocking order: set the swept frequency, arm the readout, run the
readout AWG, run the drive/trigger AWG, `wait_done()` on the drive/trigger
AWG, and only then read `result()` (whose mean is then appended); every
statement of both loop bodies is one of these operations, so in particular
no result is read before the corresponding `wait_done()` returns.  The
Rabi and T1 measurement cells follow the same arm/run/run/wait/read order
(with no frequency sweep).  The embedding is a sequential interpreter: the
script has no concurrency constructs. -/
theorem c2_sweep_iteration_order :
    (loopBodies notebookCells).map (List.filterMap classifySS) = [sweepOrder, sweepOrder] ∧
    (loopBodies notebookCells).all
      (fun b => (b.filterMap classifySS).length == b.length) = true ∧
    ((cell7.map stmtSimples).flatten).filterMap classifySS
      = [.armReadout, .runReadout, .runDrive, .waitDriveDone, .readResult] ∧
    ((cell9.map stmtSimples).flatten).filterMap classifySS
      = [.armReadout, .runReadout, .runDrive, .waitDriveDone, .readResult] := by
  refine ⟨?_, ?_, ?_, ?_⟩ <;> with_unfolding_all rfl

/-- C4: the sweep arrays have the expected lengths: both frequency sweeps
`np.linspace(50e6, 100e6, 101)` and `np.linspace(20e6, 50e6, 101)` have
101 elements, `rabi_amplitudes = np.linspace(0, 1.0, 101)` has 101
elements, and `delay_times = np.linspace(0.5e-6, 20e-6, 40)` has 40
elements; these are exactly the linspace calls the notebook assigns. -/
theorem c4_sweep_array_lengths :
    (linspace 50000000 100000000 101).length = 101 ∧
    (linspace 20000000 50000000 101).length = 101 ∧
    (linspace 0 1 101).length = 101 ∧
    (linspace (1 / 2000000) (1 / 50000) 40).length = 40 ∧
    cell3[3]? = some (.simple (.assignC "frequencies" ⟨⟨"np", ""⟩, "linspace",
      [.leaf (.num 50000000), .leaf (.num 100000000), .leaf (.num 101)], []⟩)) ∧
    cell5[2]? = some (.simple (.assignC "frequencies" ⟨⟨"np", ""⟩, "linspace",
      [.leaf (.num 20000000), .leaf (.num 50000000), .leaf (.num 101)], []⟩)) ∧
    cell6[5]? = some (.simple (.assignC "rabi_amplitudes" ⟨⟨"np", ""⟩, "linspace",
      [.leaf (.num 0), .leaf (.num 1), .leaf (.num 101)], []⟩)) ∧
    cell8[5]? = some (.simple (.assignC "delay_times" ⟨⟨"np", ""⟩, "linspace",
      [.leaf (.num (1 / 2000000)), .leaf (.num (1 / 50000)), .leaf (.num 40)], []⟩)) :=
  ⟨linspace_length .., linspace_length .., linspace_length .., linspace_length ..,
   by with_unfolding_all rfl, by with_unfolding_all rfl,
   by with_unfolding_all rfl, by with_unfolding_all rfl⟩

/-- C5: for the Custom (`.seqC`) sequence type, every placeholder
`$paramN$` in the sequence file is substituted by the N-th element
(indices from 0) of the `custom_params` list passed to
`set_sequence_params`; in particular, with the notebook's
`custom_params=[1000, 99, 1]`, `$param0$` is replaced by 1000, `$param1$`
by 99 and `$param2$` by 1 (the substitution itself lives in the library,
outside this source snapshot, and is modelled from the spec as
`substituteParams`). -/
theorem c5_custom_param_substitution :
    (∀ (params : List Int) (n : Nat) (h : n < params.length),
        substituteParams params [SeqToken.paramRef n] = [OutToken.val (params.get ⟨n, h⟩)]) ∧
    (∀ a b c d : String,
        substituteParams [1000, 99, 1]
          [.lit a, .paramRef 0, .lit b, .paramRef 1, .lit c, .paramRef 2, .lit d]
          = [.lit a, .val 1000, .lit b, .val 99, .lit c, .val 1, .lit d]) ∧
    cell10[0]? = some (.simple (.expr ⟨⟨"awg", ""⟩, "set_sequence_params", [],
      [("path", .leaf (.str "...\\Zurich Instruments\\LabOne\\WebServer\\awg\\src\\myProgram.seqC")),
       ("custom_params", .leaf (.numList [1000, 99, 1]))]⟩)) := by
  refine ⟨?_, ?_, ?_⟩
  · intro params n h
    simp [substituteParams, List.getD_eq_getElem params 0 h, List.getElem?_eq_getElem h]
  · intro a b c d
    rfl
  · rfl

/-- Witness for C5: with the notebook's `custom_params`, `$param2$` is
replaced by the third element, 1. -/
theorem c5_custom_param_substitution_witness :
    substituteParams [1000, 99, 1] [SeqToken.paramRef 2]
      = [OutToken.val (([1000, 99, 1] : List Int).get ⟨2, by decide⟩)] :=
  c5_custom_param_substitution.1 [1000, 99, 1] 2 (by decide)

/-- Labels of the pure numpy/builtin computations of the notebook (no
device interaction; every other traced call goes to a device object under
`mdc`). -/
def numpyLabels : List String :=
  ["np.linspace", "np.array", "np.ones", "np.mean", "np.append", ".len"]

/-- Claim C8 as stated, evaluated on the notebook run: cell 3 (the
resonator-spectroscopy measurement cell) raises a NameError before any
sweep iteration or hardware operation takes place — formalised as: the
cell errors, and every call it executed before the error was a pure numpy
computation. -/
def c8AsStated : Bool :=
  match (notebookRun o0).2[2]? with
  | some r => r.errName.isSome && r.trace.all (fun l => numpyLabels.contains l)
  | none => false

/-- C8 counterexample: the claim as stated is false — cell 3's first
statement, `uhfqa.result_source("Integration")`, is a call on the UHFQA
device handle and it executes (the sole entry of the cell's trace) before
the NameError on `ufhqa` is raised at the second statement. -/
theorem c8_device_call_precedes_nameerror :
    c8AsStated = false ∧
    (notebookRun o0).2[2]? = some ⟨[uhfqaPath ++ ".result_source"], some "ufhqa"⟩ ∧
    cell3[0]? = some (.simple (.expr ⟨⟨"uhfqa", ""⟩, "result_source",
      [.leaf (.str "Integration")], []⟩)) := by
  refine ⟨?_, ?_, ?_⟩ <;> with_unfolding_all rfl

/-- C8 (amended): executing the resonator-spectroscopy measurement cell
after the preceding cells raises a NameError on the undefined name
`ufhqa` at the cell's second statement — before any sweep iteration (the
sweep loop is the cell's sixth statement and its trace shows no loop
operation) and before any arm/run/wait/result operation; the only
operation executed before it is the `uhfqa.result_source("Integration")`
device-configuration call. -/
theorem c8_nameerror_halts_cell :
    (notebookRun o0).2[2]? = some ⟨[uhfqaPath ++ ".result_source"], some "ufhqa"⟩ ∧
    lookupVar (runCells o0 initSt [cell1, cell2]).1 "ufhqa" = none ∧
    cell3[1]? = some (.simple (.expr ⟨⟨"ufhqa", ""⟩, "arm", [],
      [("length", .leaf (.name "repetitions")), ("averages", .leaf (.num 1))]⟩)) ∧
    cell3.findIdx isForLoop = 5 := by
  refine ⟨?_, ?_, ?_, ?_⟩ <;> with_unfolding_all rfl

/-- C6: every `compile()`/`compile_and_upload_waveforms()` call in the
notebook is preceded, in program order, by a `set_sequence_params(...)`
call carrying a `sequence_type` on the same AWG core (receivers resolved
through the notebook's aliases to canonical core paths); the eight
compilations alternate between the HDAWG's AWG core 0 and the UHFQA's AWG
core. -/
theorem c6_configuration_precedes_compilation :
    (notebookScan notebookCells).ok = true ∧
    (notebookScan notebookCells).targets
      = [hdawgAwg0, uhfqaAwg, hdawgAwg0, uhfqaAwg,
         hdawgAwg0, uhfqaAwg, hdawgAwg0, uhfqaAwg] := by
  refine ⟨?_, ?_⟩ <;> with_unfolding_all rfl

/-- The operations of the external `zhinst.toolkit` API surface the
notebook calls. -/
def externalAPI : List String :=
  ["MultiDeviceConnection", "setup", "connect_device", "HDAWG", "UHFQA",
   "set_sequence_params", "compile", "compile_and_upload_waveforms",
   "reset_queue", "queue_waveform", "enable", "readout_frequency",
   "result_source", "result_mode", "source", "arm", "run", "wait_done",
   "result", "enable_iq_modulation", "modulation_freq", "__call__"]

/-- The numpy operations the notebook calls. -/
def numpyAPI : List String := ["linspace", "array", "ones", "mean", "append"]

/-- The Python builtins the notebook calls. -/
def builtinAPI : List String := ["len"]

/-- C7: the notebook defines no functions or classes and contains no
branching statements; every call it makes (nested argument calls included)
invokes a pre-built external-library operation, a numpy array operation,
or the builtin `len` — there is no original algorithmic implementation in
the source. -/
theorem c7_no_original_algorithms :
    countP isDefn notebookCells = 0 ∧
    countP isBranching notebookCells = 0 ∧
    (allMethodNames notebookCells).all
      (fun mn => (externalAPI ++ numpyAPI ++ builtinAPI).contains mn) = true := by
  refine ⟨?_, ?_, ?_⟩ <;> with_unfolding_all rfl

/-- C9: the notebook contains exactly three `set_sequence_params` calls
selecting the `Readout` sequence; each passes the misspelled keyword
`pulse_lenth` with value `2e-6` and none passes `pulse_length`. -/
theorem c9_pulse_lenth_misspelled :
    readoutKwNames notebookCells =
      [["sequence_type", "period", "repetitions", "pulse_lenth", "trigger_mode"],
       ["sequence_type", "period", "repetitions", "trigger_mode", "pulse_lenth"],
       ["sequence_type", "period", "pulse_lenth", "repetitions", "trigger_mode"]] ∧
    (readoutKwNames notebookCells).all
      (fun l => l.contains "pulse_lenth" && !(l.contains "pulse_length")) = true ∧
    readoutPulseLenthValues notebookCells
      = [[.leaf (.num (1 / 500000))], [.leaf (.num (1 / 500000))], [.leaf (.num (1 / 500000))]] ∧
    (readoutCalls notebookCells).length = 3 := by
  refine ⟨?_, ?_, ?_, ?_⟩ <;> with_unfolding_all rfl

/-- C10: the binary64 value of `5e-6` is `5902958103587057 / 2^70`, the
product `2.4e9 * 5e-6` rounds to `12000 + 2^-39`, and `int(...)` truncates
it to exactly 12000 samples (5 us at 2.4 GSa/s); after cell 4 the variable
`wave` holds `np.ones(12000)`, i.e. 12000 samples each equal to 1.0, and
the notebook queues this same array for both output channels
(`drive.queue_waveform(wave, wave)`). -/
theorem c10_qubit_drive_wave :
    five_us = 5902958103587057 / 1180591620717411303424 ∧
    fl (2400000000 * five_us) = 12000 + 1 / 549755813888 ∧
    waveSamples = 12000 ∧
    lookupVar (runCells o0 initSt [cell1, cell2, cell3, cell4]).1 "wave"
      = some (.arr (List.replicate 12000 1)) ∧
    cell4[7]? = some (.simple (.assignC "wave" ⟨⟨"np", ""⟩, "ones",
      [.leaf (.num (waveSamples : ℚ))], []⟩)) ∧
    cell4[8]? = some (.simple (.expr ⟨⟨"drive", ""⟩, "queue_waveform",
      [.leaf (.name "wave"), .leaf (.name "wave")], []⟩)) := by
  refine ⟨?_, ?_, ?_, ?_, ?_, ?_⟩ <;> with_unfolding_all rfl

end ZhinstNotebook
